import Mathlib

/-!
Verification of the session-persistence core of the Pachi hacker text editor
(src/Pachi-hacker-Text-Editor.py).

The subsystem under study is the session store: `HackerEditor.auto_save_session`
(lines 176-185), `HackerEditor.load_session` (lines 166-174),
`HackerEditor.new_tab` (lines 161-164) and `EditorTab.__init__` (lines 37-53).

Embedding decisions, each tied to the source:

* The durable record at `SESSION_FILE` is modelled by `Record`: the file may be
  absent, present with bytes that `json.load` cannot parse (`corrupt`), or
  present with bytes parsing to a JSON value (`parsed`).  The byte layer of
  `json.dump`/`json.load` is abstracted to JSON values: Python's `json` module
  round-trips every value it itself dumped, so dump-then-load is the identity
  on `Json`, and unparsable bytes are one constructor.
* Python values decoded from JSON are modelled by `Json`; `null` doubles as
  Python `None` (which is exactly what `json.load` produces for `null` and
  what `dict.get` returns for a missing key).
* Effects on the session file are made explicit as a `FileOp` trace emitted by
  each operation; `applyOps` says what a trace does to the record.
* Python exceptions are modelled by `Except PyErr`; the source has no
  try/except around any of the session-store code, so every raise propagates.
* A `QTextEdit`'s document state is modelled by `Content`, recording which
  setter last populated it; `toHtml` is the toolkit serializer, which the
  specification treats as an external collaborator producing/consuming the
  markup string, so `setHtml` followed by `toHtml` is modelled as the identity
  on the markup.  The markup produced for plain text (the `setPlainText`
  branch) never influences any claim: it is only carried through unchanged.
* The filesystem other than the session record (read by the
  `elif path:` branch of `EditorTab.__init__`) is a function
  `String → Option String`: `none` means `open(path)` raises.
-/

/-- A JSON value, as produced by Python's `json.load`.  `null` also stands for
Python `None`. -/
inductive Json where
  | null : Json
  | bool (b : Bool) : Json
  | num (n : Int) : Json
  | str (s : String) : Json
  | arr (items : List Json) : Json
  | obj (kvs : List (String × Json)) : Json

/-- State of the durable session record at `SESSION_FILE`. -/
inductive Record where
  /-- `os.path.exists(SESSION_FILE)` is false. -/
  | absent : Record
  /-- The file exists but `json.load` raises on its bytes. -/
  | corrupt : Record
  /-- The file exists and `json.load` returns `j`. -/
  | parsed (j : Json) : Record

/-- Python exceptions that the session-store code can raise. -/
inductive PyErr where
  /-- `json.JSONDecodeError` from `json.load` on unparsable bytes. -/
  | jsonDecodeError : PyErr
  /-- `AttributeError`: `.get` called on a value that is not a dict. -/
  | attrError : PyErr
  /-- `TypeError`: e.g. iterating a non-iterable, or `setHtml`/`open` on a
  non-string argument. -/
  | typeError : PyErr
  /-- `OSError` from `open` / file writing. -/
  | ioError : PyErr

/-- The document state of one tab's `QTextEdit`, recording which setter of
`EditorTab.__init__` populated it. -/
inductive Content where
  /-- Fresh widget: neither setter ran. -/
  | empty : Content
  /-- `self.text.setHtml(markup)` ran (line 48). -/
  | fromHtml (markup : String) : Content
  /-- `self.text.setPlainText(txt)` ran with the file's text (lines 50-51). -/
  | fromPlain (txt : String) : Content

/-- `QTextEdit.toHtml()`.  The toolkit's rich-text serializer is an external
collaborator per the specification; the markup string handed to `setHtml` is
returned as is, a fresh widget serializes to the empty markup, and the markup
rendered for plain text is abstracted (no claim depends on its value, only on
it being carried through unchanged). -/
def toHtml : Content → String
  | Content.empty => ""
  | Content.fromHtml markup => markup
  | Content.fromPlain txt => txt

/-- One editor tab: `self.path` (line 53; whatever JSON value the record held,
`None` for a fresh tab) and the text widget's document state. -/
structure Tab where
  path : Json
  content : Content

/-- Operations the session store performs on the session file. -/
inductive FileOp where
  /-- `os.path.exists(SESSION_FILE)` (line 167). -/
  | existsCheck : FileOp
  /-- `open(SESSION_FILE)` for reading plus `json.load` (lines 168-169). -/
  | readRecord : FileOp
  /-- `open(SESSION_FILE, "w")` plus `json.dump(j, f)` (lines 184-185). -/
  | writeRecord (j : Json) : FileOp

/-- Whether a file operation writes the session record. -/
def FileOp.isWrite : FileOp → Bool
  | FileOp.writeRecord _ => true
  | _ => false

/-- Effect of one file operation on the durable record. -/
def applyOp (r : Record) : FileOp → Record
  | FileOp.existsCheck => r
  | FileOp.readRecord => r
  | FileOp.writeRecord j => Record.parsed j

/-- Effect of a trace of file operations on the durable record. -/
def applyOps (r : Record) (ops : List FileOp) : Record :=
  ops.foldl applyOp r

/-- Python truthiness of a JSON-decoded value, for `elif path:` (line 49). -/
def pyTruthy : Json → Bool
  | Json.null => false
  | Json.bool b => b
  | Json.num n => n != 0
  | Json.str s => !s.isEmpty
  | Json.arr items => !items.isEmpty
  | Json.obj kvs => !kvs.isEmpty

/-- `html is not None` (line 47). -/
def isNotNone : Json → Bool
  | Json.null => false
  | _ => true

/-- Python `dict.get(k)`: the value stored under `k`, else `None`.  `json.load`
keeps the last occurrence of a duplicated key, hence the reversed scan. -/
def dictGet (kvs : List (String × Json)) (k : String) : Json :=
  match kvs.reverse.find? (fun kv => kv.fst == k) with
  | some kv => kv.snd
  | none => Json.null

/-- `EditorTab.__init__(path, html)` (lines 37-53): if `html` is not `None`,
`setHtml(html)`; elif `path` is truthy, `setPlainText(open(path).read())`;
else leave the widget empty; finally `self.path = path`.  `setHtml` and `open`
raise `TypeError` on a non-string argument; `open` on a missing file raises
`OSError`. -/
def EditorTab.init (fs : String → Option String) (path html : Json) :
    Except PyErr Tab :=
  if isNotNone html then
    match html with
    | Json.str markup => Except.ok { path := path, content := Content.fromHtml markup }
    | _ => Except.error PyErr.typeError
  else if pyTruthy path then
    match path with
    | Json.str p =>
      match fs p with
      | some txt => Except.ok { path := path, content := Content.fromPlain txt }
      | none => Except.error PyErr.ioError
    | _ => Except.error PyErr.typeError
  else
    Except.ok { path := path, content := Content.empty }

/-- `HackerEditor.new_tab` (lines 161-164) adds `EditorTab()`, i.e.
`EditorTab.init` with both arguments `None`: an empty, path-less tab. -/
def newTab : Tab :=
  { path := Json.null, content := Content.empty }

/-- `for item in data` (line 170): what Python iteration yields on each JSON
shape.  Iterating a dict yields its keys (strings, in insertion order);
iterating a string yields its one-character substrings; `None`, numbers and
booleans are not iterable and raise `TypeError`. -/
def iterItems : Json → Except PyErr (List Json)
  | Json.arr items => Except.ok items
  | Json.obj kvs => Except.ok (kvs.map (fun kv => Json.str kv.fst))
  | Json.str s => Except.ok (s.data.map (fun c => Json.str (String.singleton c)))
  | _ => Except.error PyErr.typeError

/-- The body of the loop at lines 170-172: for each `item`,
`EditorTab(item.get("path"), html=item.get("html"))` is appended.  `.get` on a
non-dict raises `AttributeError`. -/
def loadItems (fs : String → Option String) : List Json → Except PyErr (List Tab)
  | [] => Except.ok []
  | item :: rest =>
    match item with
    | Json.obj kvs =>
      match EditorTab.init fs (dictGet kvs "path") (dictGet kvs "html") with
      | Except.ok t =>
        match loadItems fs rest with
        | Except.ok ts => Except.ok (t :: ts)
        | Except.error e => Except.error e
      | Except.error e => Except.error e
    | _ => Except.error PyErr.attrError

/-- The store-level load (lines 167-172): the specification's `load()`.  If the
record is absent no documents are restored; otherwise the bytes are parsed and
the loop rebuilds one tab per stored item, in stored order.  The
empty-session fallback of lines 173-174 belongs to the controller and is in
`load_session` below. -/
def loadDocs (fs : String → Option String) : Record → Except PyErr (List Tab)
  | Record.absent => Except.ok []
  | Record.corrupt => Except.error PyErr.jsonDecodeError
  | Record.parsed j =>
    match iterItems j with
    | Except.ok items => loadItems fs items
    | Except.error e => Except.error e

/-- `HackerEditor.load_session` (lines 166-174): the store-level load followed
by `if self.tabs.count() == 0: self.new_tab()`, together with the trace of
operations performed on the session file (an existence check, and a read when
the file exists; the function never writes the record). -/
def load_session (fs : String → Option String) (r : Record) :
    Except PyErr (List Tab) × List FileOp :=
  ( match loadDocs fs r with
    | Except.ok ts => Except.ok (if ts.isEmpty then [newTab] else ts)
    | Except.error e => Except.error e
  , match r with
    | Record.absent => [FileOp.existsCheck]
    | _ => [FileOp.existsCheck, FileOp.readRecord] )

/-- The `data` list built by `auto_save_session` (lines 177-183): one object
per open tab, in tab order, holding `self.path` and `toHtml()` of the widget. -/
def sessionJson (tabs : List Tab) : Json :=
  Json.arr (tabs.map (fun t =>
    Json.obj [("path", t.path), ("html", Json.str (toHtml t.content))]))

/-- `HackerEditor.auto_save_session` (lines 176-185): serialize every open tab
and write the result over the session file.  `writeOk` says whether the open
and write at lines 184-185 succeed; on failure the `OSError` propagates (the
source has no handler).  The trace records the successful write; a failed
write's effect on the record is not modelled, as no claim depends on it. -/
def auto_save_session (tabs : List Tab) (writeOk : Bool) :
    Except PyErr Unit × List FileOp :=
  if writeOk then
    (Except.ok (), [FileOp.writeRecord (sessionJson tabs)])
  else
    (Except.error PyErr.ioError, [])

/-! ## Helper lemmas -/

/-- The per-tab object written by `auto_save_session`. -/
def tabJson (t : Tab) : Json :=
  Json.obj [("path", t.path), ("html", Json.str (toHtml t.content))]

/-- The tab that loading one saved object rebuilds: same stored path, widget
populated by `setHtml` with the stored markup. -/
def restoredTab (t : Tab) : Tab :=
  { path := t.path, content := Content.fromHtml (toHtml t.content) }

/-- Whether a stored item is an object whose `html` entry is a string, i.e.
`item.get("html")` is a present, non-null string (the shape every item written
by `auto_save_session` has). -/
def itemHtmlIsStr : Json → Bool
  | Json.obj kvs =>
    match dictGet kvs "html" with
    | Json.str _ => true
    | _ => false
  | _ => false

theorem dictGet_saved_path (p : Json) (m : String) :
    dictGet [("path", p), ("html", Json.str m)] "path" = p := rfl

theorem dictGet_saved_html (p : Json) (m : String) :
    dictGet [("path", p), ("html", Json.str m)] "html" = Json.str m := rfl

theorem EditorTab.init_html_str (fs : String → Option String) (path : Json)
    (m : String) :
    EditorTab.init fs path (Json.str m)
      = Except.ok { path := path, content := Content.fromHtml m } := rfl

theorem loadItems_saved (fs : String → Option String) (tabs : List Tab) :
    loadItems fs (tabs.map tabJson) = Except.ok (tabs.map restoredTab) := by
  induction tabs with
  | nil => rfl
  | cons t rest ih =>
    simp [loadItems, tabJson, ih, restoredTab, dictGet_saved_path,
      dictGet_saved_html, EditorTab.init_html_str]

/-! ## Claims -/

/-- C1: for every Session of N tabs (N >= 0), saving and then loading through
the store (the deserialization of lines 167-172; the empty-session fallback of
lines 173-174 is the controller substitution treated in C4 and C5) yields the
same number of documents, in the same order, with the same `path` values and
byte-identical content markup strings. -/
theorem save_load_roundTrip (fs : String → Option String) (tabs : List Tab) :
    ∃ tabs2 : List Tab,
      loadDocs fs (Record.parsed (sessionJson tabs)) = Except.ok tabs2 ∧
      tabs2.length = tabs.length ∧
      tabs2.map Tab.path = tabs.map Tab.path ∧
      tabs2.map (fun t => toHtml t.content) = tabs.map (fun t => toHtml t.content) := by
  refine ⟨tabs.map restoredTab, ?_, ?_, ?_, ?_⟩
  · show (match iterItems (sessionJson tabs) with
      | Except.ok items => loadItems fs items
      | Except.error e => Except.error e) = _
    rw [sessionJson, iterItems]
    exact loadItems_saved fs tabs
  · simp
  · simp [restoredTab]
  · simp [restoredTab, toHtml]

/-- C2: the claim says a corrupt record makes `load` return an empty session
without a fatal error; the code has no handler around `json.load`, so the
parse error propagates out of `load_session`. -/
theorem load_session_corrupt_raises :
    (load_session (fun _ => none) Record.corrupt).1
      = Except.error PyErr.jsonDecodeError := rfl

/-- C3: the claim says a write failure during save is contained; the code has
no handler around `open(SESSION_FILE, "w")` / `json.dump`, so the I/O error
propagates out of `auto_save_session` (the in-memory tab list itself is
untouched, as `auto_save_session` only reads it). -/
theorem auto_save_write_failure_raises (tabs : List Tab) :
    (auto_save_session tabs false).1 = Except.error PyErr.ioError := rfl

/-- C4: with the record absent, the store-level load restores zero documents,
and `load_session` (the controller path) then presents exactly one empty,
path-less tab. -/
theorem load_absent_empty_default (fs : String → Option String) :
    loadDocs fs Record.absent = Except.ok [] ∧
    (load_session fs Record.absent).1 = Except.ok [newTab] ∧
    newTab.path = Json.null ∧ newTab.content = Content.empty :=
  ⟨rfl, rfl, rfl, rfl⟩

/-- C5: whenever `load_session` completes without raising, the resulting tab
list is non-empty (the lines 173-174 fallback restores the lower bound), and
the session store's only other operation, `auto_save_session`, does not modify
the tab list at all, so the bound is preserved afterwards. -/
theorem load_session_nonempty (fs : String → Option String) (r : Record)
    (ts : List Tab) (h : (load_session fs r).1 = Except.ok ts) : ts ≠ [] := by
  unfold load_session at h
  cases hld : loadDocs fs r with
  | error e => rw [hld] at h; exact absurd h (by simp)
  | ok ts0 =>
    rw [hld] at h
    simp only [Except.ok.injEq] at h
    subst h
    cases ts0 with
    | nil => simp [newTab]
    | cons t rest => simp

/-- Witness for C5: loading with no prior record yields the single fresh tab,
a non-empty session. -/
theorem load_session_nonempty_witness :
    (load_session (fun _ => none) Record.absent).1 = Except.ok [newTab] ∧
    [newTab] ≠ [] :=
  ⟨rfl, load_session_nonempty (fun _ => none) Record.absent [newTab] rfl⟩

/-- C6: a successful save replaces the durable record, whatever it held
before, with the complete snapshot: one object per open tab, in tab order,
and that single write is the only file operation the save performs. -/
theorem save_complete_snapshot (tabs : List Tab) (prev : Record) :
    applyOps prev (auto_save_session tabs true).2
      = Record.parsed (Json.arr (tabs.map tabJson)) ∧
    (auto_save_session tabs true).2 = [FileOp.writeRecord (sessionJson tabs)] :=
  ⟨rfl, rfl⟩

/-- C7: saving the same session twice leaves the record exactly as after the
first save, and loading that record yields a session with the same paths and
the same content markup strings as the saved one, after the first save and
therefore also after the second. -/
theorem save_idempotent (fs : String → Option String) (tabs : List Tab)
    (r : Record) :
    applyOps (applyOps r (auto_save_session tabs true).2)
        (auto_save_session tabs true).2
      = applyOps r (auto_save_session tabs true).2 ∧
    loadDocs fs (applyOps (applyOps r (auto_save_session tabs true).2)
        (auto_save_session tabs true).2)
      = loadDocs fs (applyOps r (auto_save_session tabs true).2) ∧
    ∃ tabs2 : List Tab,
      loadDocs fs (applyOps r (auto_save_session tabs true).2) = Except.ok tabs2 ∧
      tabs2.map Tab.path = tabs.map Tab.path ∧
      tabs2.map (fun t => toHtml t.content) = tabs.map (fun t => toHtml t.content) := by
  refine ⟨rfl, rfl, tabs.map restoredTab, ?_, ?_, ?_⟩
  · show loadDocs fs (Record.parsed (sessionJson tabs)) = _
    show (match iterItems (sessionJson tabs) with
      | Except.ok items => loadItems fs items
      | Except.error e => Except.error e) = _
    rw [sessionJson, iterItems]
    exact loadItems_saved fs tabs
  · simp [restoredTab]
  · simp [restoredTab, toHtml]

/-- C8: `load_session` never writes the session record: its trace leaves any
record state unchanged and contains no write operation. -/
theorem load_session_no_write (fs : String → Option String) (r : Record) :
    applyOps r (load_session fs r).2 = r ∧
    ((load_session fs r).2.all (fun op => !op.isWrite)) = true := by
  cases r <;> exact ⟨rfl, rfl⟩

/-- C9: a stored object may lack the `path` or `html` key; `dict.get` then
yields `None`, so an object with neither key restores as an empty path-less
tab and an object with only `html` restores as a path-less tab carrying that
markup. -/
theorem load_missing_keys (fs : String → Option String) (markup : String) :
    loadDocs fs (Record.parsed (Json.arr [Json.obj []]))
      = Except.ok [{ path := Json.null, content := Content.empty }] ∧
    loadDocs fs (Record.parsed (Json.arr [Json.obj [("html", Json.str markup)]]))
      = Except.ok [{ path := Json.null, content := Content.fromHtml markup }] :=
  ⟨rfl, rfl⟩

theorem loadDocs_parsed_arr (fs : String → Option String) (items : List Json) :
    loadDocs fs (Record.parsed (Json.arr items)) = loadItems fs items := rfl

theorem loadItems_html_only (fs1 fs2 : String → Option String)
    (items : List Json) (h : items.all itemHtmlIsStr = true) :
    (∃ ts, loadItems fs1 items = Except.ok ts) ∧
    loadItems fs1 items = loadItems fs2 items := by
  induction items with
  | nil => exact ⟨⟨[], rfl⟩, rfl⟩
  | cons item rest ih =>
    rw [List.all_cons, Bool.and_eq_true] at h
    obtain ⟨h1, h2⟩ := h
    obtain ⟨⟨ts, hts⟩, hsame⟩ := ih h2
    cases item with
    | null => simp [itemHtmlIsStr] at h1
    | bool b => simp [itemHtmlIsStr] at h1
    | num n => simp [itemHtmlIsStr] at h1
    | str s => simp [itemHtmlIsStr] at h1
    | arr xs => simp [itemHtmlIsStr] at h1
    | obj kvs =>
      cases hm : dictGet kvs "html" with
      | str m =>
        refine ⟨⟨{ path := dictGet kvs "path", content := Content.fromHtml m } :: ts, ?_⟩, ?_⟩
        · simp [loadItems, hm, EditorTab.init_html_str, hts]
        · simp [loadItems, hm, EditorTab.init_html_str, hsame]
      | null => simp [itemHtmlIsStr, hm] at h1
      | bool b => simp [itemHtmlIsStr, hm] at h1
      | num n => simp [itemHtmlIsStr, hm] at h1
      | arr xs => simp [itemHtmlIsStr, hm] at h1
      | obj kvs2 => simp [itemHtmlIsStr, hm] at h1

/-- C10: when every stored item carries a string `html` value, loading
succeeds and its result does not depend on the filesystem at all: the restored
content comes entirely from the stored markup, and the files named by the
stored paths are never opened. -/
theorem load_ignores_file_contents (fs1 fs2 : String → Option String)
    (items : List Json) (h : items.all itemHtmlIsStr = true) :
    (∃ ts, loadDocs fs1 (Record.parsed (Json.arr items)) = Except.ok ts) ∧
    loadDocs fs1 (Record.parsed (Json.arr items))
      = loadDocs fs2 (Record.parsed (Json.arr items)) := by
  rw [loadDocs_parsed_arr, loadDocs_parsed_arr]
  exact loadItems_html_only fs1 fs2 items h

/-- Witness for C10: one stored item with a path and a string `html` value;
loading over a filesystem where the path is unreadable equals loading over one
where every file reads as a different text. -/
theorem load_ignores_file_contents_witness :
    ([Json.obj [("path", Json.str "/tmp/x.py"),
        ("html", Json.str "<b>hello</b>")]].all itemHtmlIsStr = true) ∧
    ((∃ ts, loadDocs (fun _ => none)
        (Record.parsed (Json.arr [Json.obj [("path", Json.str "/tmp/x.py"),
          ("html", Json.str "<b>hello</b>")]])) = Except.ok ts) ∧
      loadDocs (fun _ => none)
        (Record.parsed (Json.arr [Json.obj [("path", Json.str "/tmp/x.py"),
          ("html", Json.str "<b>hello</b>")]]))
        = loadDocs (fun _ => some "different file contents")
        (Record.parsed (Json.arr [Json.obj [("path", Json.str "/tmp/x.py"),
          ("html", Json.str "<b>hello</b>")]]))) :=
  ⟨rfl, load_ignores_file_contents (fun _ => none)
    (fun _ => some "different file contents")
    [Json.obj [("path", Json.str "/tmp/x.py"), ("html", Json.str "<b>hello</b>")]]
    rfl⟩
